import Mathlib

/-!
Shallow embedding of the translation app component (src/src/App.jsx).

The component keeps its working data in React state hooks; we collect those
hooks into a record `AppState`.  Event handlers become pure functions on that
record.  The single outbound HTTP call of `translateText` is modelled by
emitting the request as data (`Option TranslateRequest`) and taking the
network outcome (`NetOutcome`) as an explicit argument; handlers that perform
no network call emit `none` by construction, mirroring the absence of any
`axios` call in their bodies.
-/

/-- React state of the `App` component: one field per `useState` hook. -/
structure AppState where
  inputText : String
  translatedText : String
  sourceLang : String
  targetLang : String
  isLoading : Bool
  error : String
  copied : Bool
  apiKey : String
  tempKey : String
deriving DecidableEq, Repr

/-- The outbound POST request built by `translateText`: the three URL-encoded
form fields plus the credential attached as the `X-RapidAPI-Key` header. -/
structure TranslateRequest where
  source_language : String
  target_language : String
  text : String
  apiKey : String
deriving DecidableEq, Repr

/-- Outcome of the awaited `axios.request` call: either a resolved response
carrying the optional nested field `data.data.translatedText`, or a rejection
carrying the optional HTTP status `err?.response?.status` (`none` models a
transport error with no response). -/
inductive NetOutcome where
  | success (translatedText : Option String)
  | failure (status : Option Nat)
deriving DecidableEq, Repr

/-- JavaScript `String.prototype.trim`: strip whitespace characters from both
ends of the string. -/
def jsTrim (s : String) : String :=
  ⟨((s.data.dropWhile Char.isWhitespace).reverse.dropWhile
      Char.isWhitespace).reverse⟩

/-- JavaScript `a || b` specialised to an optional string on the left:
`undefined`/`null` (here `none`) and the empty string are falsy. -/
def jsStrOr : Option String → String → String
  | some v, b => if v = "" then b else v
  | none, b => b

/-- Error message set by `translateText` when the trimmed input is empty. -/
def emptyInputError : String := "Please enter some text to translate"

/-- Error message set by `translateText` when the credential is absent. -/
def missingKeyError : String :=
  "Missing RapidAPI key. Enter your key below and click Save, or add VITE_RAPIDAPI_KEY as a build secret."

/-- Error message for HTTP 401/403 responses. -/
def authFailedError : String :=
  "Authorization failed (401/403). Ensure your RapidAPI key is valid and you are subscribed to text-translator2 (free plan)"

/-- Error message for HTTP 429 responses. -/
def rateLimitError : String :=
  "Rate limit exceeded (429). Please wait and try again."

/-- Error message for every other failure. -/
def translationFailedError : String :=
  "Failed to translate. Please try again later."

/-- The `catch` branch of `translateText`: classify a failure by
`err?.response?.status`. -/
def classifyStatus (status : Option Nat) : String :=
  if status = some 401 ∨ status = some 403 then authFailedError
  else if status = some 429 then rateLimitError
  else translationFailedError

/-- `translateText` from App.jsx.  Guard clauses first (empty trimmed input,
then missing key), each returning with only the error message set and no
request issued.  Otherwise the loading flag is raised, the error cleared, the
request dispatched, the outcome handled (`try`/`catch`), and the loading flag
cleared unconditionally (`finally`). -/
def translateText (s : AppState) (o : NetOutcome) :
    AppState × Option TranslateRequest :=
  if jsTrim s.inputText = "" then
    ({ s with error := emptyInputError }, none)
  else if s.apiKey = "" then
    ({ s with error := missingKeyError }, none)
  else
    let s1 := { s with isLoading := true, error := "" }
    let req : TranslateRequest :=
      { source_language := s.sourceLang, target_language := s.targetLang,
        text := s.inputText, apiKey := s.apiKey }
    let s2 :=
      match o with
      | NetOutcome.success t => { s1 with translatedText := jsStrOr t "" }
      | NetOutcome.failure st => { s1 with error := classifyStatus st }
    ({ s2 with isLoading := false }, some req)

/-- `swapLanguages` from App.jsx: all four setters read the state captured at
render time, so the two language codes and the two text fields are exchanged
simultaneously.  No network call occurs in the body. -/
def swapLanguages (s : AppState) : AppState × Option TranslateRequest :=
  ({ s with sourceLang := s.targetLang, targetLang := s.sourceLang,
            inputText := s.translatedText, translatedText := s.inputText },
   none)

/-- `clearText` from App.jsx: resets the two text fields and the error
message.  No network call occurs in the body. -/
def clearText (s : AppState) : AppState × Option TranslateRequest :=
  ({ s with inputText := "", translatedText := "", error := "" }, none)

/-- The `apiKey` initialiser from App.jsx:
`(import.meta.env.VITE_RAPIDAPI_KEY || localStorage.getItem(..) || '').trim()`.
`env` models the build-time injected value (`none` = undefined), `stored` the
value persisted in localStorage (`none` = null). -/
def initialApiKey (env stored : Option String) : String :=
  jsTrim (jsStrOr env (jsStrOr stored ""))

/-- A concrete state used by the witness theorems. -/
def sampleState : AppState :=
  { inputText := "Hello", translatedText := "old output", sourceLang := "en",
    targetLang := "es", isLoading := false, error := "", copied := false,
    apiKey := "key123", tempKey := "" }

/-- C1: whenever the trimmed input text is empty, `translateText` issues no
network request, sets the error to the empty-input message, and leaves every
other field — in particular the loading flag — unchanged, for every state and
every would-be network outcome. -/
theorem emptyInput_no_request (s : AppState) (o : NetOutcome)
    (h : jsTrim s.inputText = "") :
    translateText s o = ({ s with error := emptyInputError }, none) ∧
    (translateText s o).1.isLoading = s.isLoading := by
  unfold translateText
  rw [if_pos h]
  exact ⟨rfl, rfl⟩

/-- Witness for C1 at a whitespace-only input. -/
theorem emptyInput_no_request_witness :
    translateText { sampleState with inputText := "  \t " }
        (NetOutcome.success (some "Hola"))
      = ({ { sampleState with inputText := "  \t " }
             with error := emptyInputError }, none) :=
  (emptyInput_no_request { sampleState with inputText := "  \t " }
    (NetOutcome.success (some "Hola")) (by decide)).1

/-- C2: whenever the trimmed input text is non-empty but the credential is
the empty string, `translateText` issues no network request and sets the
error to the missing-credential message, for every state and outcome. -/
theorem missingKey_no_request (s : AppState) (o : NetOutcome)
    (h1 : jsTrim s.inputText ≠ "") (h2 : s.apiKey = "") :
    translateText s o = ({ s with error := missingKeyError }, none) := by
  unfold translateText
  rw [if_neg h1, if_pos h2]

/-- Witness for C2 at a concrete state with text but no key. -/
theorem missingKey_no_request_witness :
    translateText { sampleState with apiKey := "" }
        (NetOutcome.failure (some 500))
      = ({ { sampleState with apiKey := "" }
             with error := missingKeyError }, none) :=
  missingKey_no_request { sampleState with apiKey := "" }
    (NetOutcome.failure (some 500)) (by decide) (by decide)

/-- C3: the failure classification is a total function of the optional HTTP
status: 401 and 403 map to the authorization message, 429 to the rate-limit
message, everything else (including a transport error with no status) to the
generic message; the three messages are pairwise distinct and exactly one is
produced, and the `catch` branch of `translateText` stores exactly this
classification in the error field. -/
theorem classifyStatus_total (st : Option Nat) :
    ((st = some 401 ∨ st = some 403) → classifyStatus st = authFailedError) ∧
    (st = some 429 → classifyStatus st = rateLimitError) ∧
    ((st ≠ some 401 ∧ st ≠ some 403 ∧ st ≠ some 429) →
      classifyStatus st = translationFailedError) ∧
    (authFailedError ≠ rateLimitError ∧
     authFailedError ≠ translationFailedError ∧
     rateLimitError ≠ translationFailedError) ∧
    (∀ s : AppState, jsTrim s.inputText ≠ "" → s.apiKey ≠ "" →
      (translateText s (NetOutcome.failure st)).1.error = classifyStatus st) := by
  refine ⟨?_, ?_, ?_, ⟨by decide, by decide, by decide⟩, ?_⟩
  · intro h
    unfold classifyStatus
    rw [if_pos h]
  · intro h
    unfold classifyStatus
    rw [if_neg (by simp [h]), if_pos (by simp [h])]
  · intro ⟨h1, h2, h3⟩
    unfold classifyStatus
    rw [if_neg (by simp [h1, h2]), if_neg (by simp [h3])]
  · intro s hs hk
    unfold translateText
    rw [if_neg hs, if_neg hk]

/-- Witness for C3 at status 429. -/
theorem classifyStatus_total_witness :
    classifyStatus (some 429) = rateLimitError ∧
    (translateText sampleState (NetOutcome.failure (some 429))).1.error
      = classifyStatus (some 429) := by
  have h := classifyStatus_total (some 429)
  exact ⟨h.2.1 rfl, h.2.2.2.2 sampleState (by decide) (by decide)⟩

/-- C4: on a successful response, the displayed output equals the nested
`data.data.translatedText` field when that field is present, and is the empty
string with no error when the field is absent. -/
theorem success_sets_translatedText (s : AppState) (t : Option String)
    (h1 : jsTrim s.inputText ≠ "") (h2 : s.apiKey ≠ "") :
    (∀ v, t = some v →
      (translateText s (NetOutcome.success t)).1.translatedText = v) ∧
    (t = none →
      (translateText s (NetOutcome.success t)).1.translatedText = "" ∧
      (translateText s (NetOutcome.success t)).1.error = "") := by
  constructor
  · intro v hv
    subst hv
    simp only [translateText, if_neg h1, if_neg h2, jsStrOr]
    by_cases hv0 : v = "" <;> simp [hv0]
  · intro ht
    subst ht
    simp [translateText, if_neg h1, if_neg h2, jsStrOr]

/-- Witness for C4: a response carrying "Hola" displays "Hola". -/
theorem success_sets_translatedText_witness :
    (translateText sampleState
        (NetOutcome.success (some "Hola"))).1.translatedText = "Hola" :=
  (success_sets_translatedText sampleState (some "Hola")
    (by decide) (by decide)).1 "Hola" rfl

/-- C5: whenever `translateText` actually dispatches a request, the loading
flag is false in the resulting state, whatever the outcome (success,
classified failure with any status, or transport error). -/
theorem loading_cleared_after_dispatch (s : AppState) (o : NetOutcome)
    (h : (translateText s o).2.isSome = true) :
    (translateText s o).1.isLoading = false := by
  unfold translateText at h ⊢
  by_cases h1 : jsTrim s.inputText = ""
  · rw [if_pos h1] at h
    simp at h
  · rw [if_neg h1] at h ⊢
    by_cases h2 : s.apiKey = ""
    · rw [if_pos h2] at h
      simp at h
    · rw [if_neg h2]

/-- Witness for C5 on a dispatched request that fails with status 500. -/
theorem loading_cleared_after_dispatch_witness :
    (translateText sampleState
        (NetOutcome.failure (some 500))).1.isLoading = false :=
  loading_cleared_after_dispatch sampleState (NetOutcome.failure (some 500))
    (by decide)

/-- C6: `swapLanguages` exchanges the two language selections and the two
text fields exactly, issues no network request, and leaves every other state
field unchanged. -/
theorem swapLanguages_spec (s : AppState) :
    (swapLanguages s).1.sourceLang = s.targetLang ∧
    (swapLanguages s).1.targetLang = s.sourceLang ∧
    (swapLanguages s).1.inputText = s.translatedText ∧
    (swapLanguages s).1.translatedText = s.inputText ∧
    (swapLanguages s).2 = none ∧
    (swapLanguages s).1.isLoading = s.isLoading ∧
    (swapLanguages s).1.error = s.error ∧
    (swapLanguages s).1.copied = s.copied ∧
    (swapLanguages s).1.apiKey = s.apiKey ∧
    (swapLanguages s).1.tempKey = s.tempKey :=
  ⟨rfl, rfl, rfl, rfl, rfl, rfl, rfl, rfl, rfl, rfl⟩

/-- C8: `clearText` sets the input text, the output text and the error to the
empty string, issues no network request, and leaves the language selections,
the credential, the loading flag and the remaining fields unchanged. -/
theorem clearText_spec (s : AppState) :
    (clearText s).1.inputText = "" ∧
    (clearText s).1.translatedText = "" ∧
    (clearText s).1.error = "" ∧
    (clearText s).2 = none ∧
    (clearText s).1.sourceLang = s.sourceLang ∧
    (clearText s).1.targetLang = s.targetLang ∧
    (clearText s).1.apiKey = s.apiKey ∧
    (clearText s).1.isLoading = s.isLoading ∧
    (clearText s).1.copied = s.copied ∧
    (clearText s).1.tempKey = s.tempKey :=
  ⟨rfl, rfl, rfl, rfl, rfl, rfl, rfl, rfl, rfl, rfl⟩

/-- C9: when the trimmed input is empty and the credential is also absent,
the empty-input check fires first: the error is the empty-input message, not
the missing-credential message (the two messages differ). -/
theorem bothFail_emptyInput_wins (s : AppState) (o : NetOutcome)
    (h1 : jsTrim s.inputText = "") (_hkey : s.apiKey = "") :
    (translateText s o).1.error = emptyInputError ∧
    emptyInputError ≠ missingKeyError := by
  refine ⟨?_, by decide⟩
  unfold translateText
  rw [if_pos h1]

/-- Witness for C9 at a state failing both preconditions. -/
theorem bothFail_emptyInput_wins_witness :
    (translateText { sampleState with inputText := " ", apiKey := "" }
        (NetOutcome.failure none)).1.error = emptyInputError :=
  (bothFail_emptyInput_wins { sampleState with inputText := " ", apiKey := "" }
    (NetOutcome.failure none) (by decide) (by decide)).1

/-- C10: on every failure path of `translateText` — empty trimmed input,
missing credential, or a rejected request — the displayed translated text is
unchanged; only the success path overwrites it. -/
theorem failure_preserves_output (s : AppState) (o : NetOutcome)
    (h : jsTrim s.inputText = "" ∨ s.apiKey = "" ∨
         ∃ st, o = NetOutcome.failure st) :
    (translateText s o).1.translatedText = s.translatedText := by
  unfold translateText
  by_cases h1 : jsTrim s.inputText = ""
  · rw [if_pos h1]
  · rw [if_neg h1]
    by_cases h2 : s.apiKey = ""
    · rw [if_pos h2]
    · rw [if_neg h2]
      rcases h with h | h | ⟨st, rfl⟩
      · exact absurd h h1
      · exact absurd h h2
      · rfl

/-- Witness for C10 on a request rejected with status 500. -/
theorem failure_preserves_output_witness :
    (translateText sampleState
        (NetOutcome.failure (some 500))).1.translatedText
      = sampleState.translatedText :=
  failure_preserves_output sampleState (NetOutcome.failure (some 500))
    (Or.inr (Or.inr ⟨some 500, rfl⟩))

/-- C7 counterexample: the startup credential is not always the build-time
injected value when one is present — the code trims it.  With injected value
" k " and nothing persisted the credential is "k", not " k ". -/
theorem apiKey_precedence_counterexample :
    initialApiKey (some " k ") none = "k" ∧ " k " ≠ "k" := by
  exact ⟨by decide, by decide⟩

/-- C7 (amended): at startup the credential is the whitespace-trim of: the
build-time injected value if defined and non-empty, else the persisted value
if defined and non-empty, else the empty string; for every combination of the
two sources the result is determined by this order. -/
theorem apiKey_precedence (env stored : Option String) :
    (∀ e, env = some e → e ≠ "" → initialApiKey env stored = jsTrim e) ∧
    ((env = none ∨ env = some "") →
      ∀ v, stored = some v → v ≠ "" → initialApiKey env stored = jsTrim v) ∧
    ((env = none ∨ env = some "") → (stored = none ∨ stored = some "") →
      initialApiKey env stored = "") := by
  refine ⟨?_, ?_, ?_⟩
  · intro e he hne
    subst he
    simp [initialApiKey, jsStrOr, hne]
  · intro henv v hv hnv
    subst hv
    rcases henv with h | h <;> subst h <;> simp [initialApiKey, jsStrOr, hnv]
  · intro henv hst
    rcases henv with h | h <;> subst h <;>
      rcases hst with h2 | h2 <;> subst h2 <;> decide

/-- Witness for the amended C7: a non-empty build-time value wins over a
non-empty persisted value. -/
theorem apiKey_precedence_witness :
    initialApiKey (some "envkey") (some "storedkey") = "envkey" := by
  have h := (apiKey_precedence (some "envkey") (some "storedkey")).1
    "envkey" rfl (by decide)
  rw [h]
  decide
